import Mathlib

/-!
Shallow embedding of the swing-trader daily pipeline core
(worker/src/engine/{features,scoring,signals,universe}.ts and
worker/src/tax/rotation-cost.ts) over exact rational arithmetic.

JS numbers are modelled as rationals; `Math.round`/`Math.floor` become
floor-based functions; nullable numbers become `Option Rat`; JS
truthiness (null and 0 falsy) is modelled explicitly; the one place the
code can produce NaN (0/0 in the cross-sectional percentile) is modelled
with an `Option` result. Database reads are passed in as explicit
arguments (the fetched record), and string log/reason messages are
modelled as symbolic tags carrying the same branch structure.
-/

namespace SwingTrader

/-- JS Math.round on a rational: floor (x + 1/2), rounding half toward +infinity. -/
def jsRound (x : ℚ) : ℤ := ⌊x + 1/2⌋

/-- JS Math.floor on a rational. -/
def jsFloor (x : ℚ) : ℤ := ⌊x⌋

/-- Math.round(x * 10000) / 10000 : round to 4 decimal places. -/
def round4 (x : ℚ) : ℚ := (jsRound (x * 10000) : ℚ) / 10000

/-- Math.round(x * 100) / 100 : round to 2 decimal places. -/
def round2 (x : ℚ) : ℚ := (jsRound (x * 100) : ℚ) / 100

/-- Math.round(x * 10000) / 100 : a fraction rendered as a percentage with 2 decimals. -/
def toPct2 (x : ℚ) : ℚ := (jsRound (x * 10000) : ℚ) / 100

/-- JS truthiness of a nullable number: null and 0 are falsy, everything else truthy. -/
def jsTruthy : Option ℚ → Bool
  | none => false
  | some x => decide (x ≠ 0)

/-! ## TaxCalculator (worker/src/tax/rotation-cost.ts) -/

structure TaxImpact where
  holdingDays : ℤ
  isLongTerm : Bool
  estimatedGainPct : ℚ
  estimatedTaxRate : ℚ
  taxDragPct : ℚ
  daysToLongTerm : ℤ
  requiredEdgeToRotate : ℚ
deriving DecidableEq, Repr

def SHORT_TERM_TAX_RATE : ℚ := 37/100

def LONG_TERM_TAX_RATE : ℚ := 15/100

def TRANSACTION_BUFFER : ℚ := 2/100

def MS_PER_DAY : ℚ := 1000 * 60 * 60 * 24

/-- `Math.floor((now.getTime() - entryDate.getTime()) / (1000*60*60*24))`. -/
def holdingDaysOf (nowMs entryMs : ℤ) : ℤ :=
  jsFloor (((nowMs : ℚ) - (entryMs : ℚ)) / MS_PER_DAY)

/-- `(currentPrice - entryPrice) / entryPrice`. -/
def gainPctOf (entryPrice currentPrice : ℚ) : ℚ :=
  (currentPrice - entryPrice) / entryPrice

/-- `calculateTaxDrag(entryDate, entryPrice, currentPrice)`. The implicit
`new Date()` of the source is the explicit `nowMs` argument; dates are epoch
milliseconds, as in JS. -/
def calculateTaxDrag (nowMs entryMs : ℤ) (entryPrice currentPrice : ℚ) : TaxImpact :=
  let holdingDays : ℤ := holdingDaysOf nowMs entryMs
  let daysToLongTerm : ℤ := max 0 (365 - holdingDays)
  let gainPct : ℚ := gainPctOf entryPrice currentPrice
  if gainPct ≤ 0 then
    { holdingDays := holdingDays, isLongTerm := decide (365 ≤ holdingDays),
      estimatedGainPct := gainPct,
      estimatedTaxRate := 0, taxDragPct := 0, daysToLongTerm := daysToLongTerm,
      requiredEdgeToRotate := TRANSACTION_BUFFER }
  else
    let taxRate := if 365 ≤ holdingDays then LONG_TERM_TAX_RATE else SHORT_TERM_TAX_RATE
    let taxDragPct := gainPct * taxRate
    let requiredEdge0 := taxDragPct + TRANSACTION_BUFFER
    let potentialSavings := gainPct * (SHORT_TERM_TAX_RATE - LONG_TERM_TAX_RATE)
    let requiredEdge :=
      if ¬ 365 ≤ holdingDays ∧ daysToLongTerm ≤ 30 ∧ 1/10 < gainPct then
        requiredEdge0 + potentialSavings * (1/2)
      else requiredEdge0
    { holdingDays := holdingDays, isLongTerm := decide (365 ≤ holdingDays),
      estimatedGainPct := round4 gainPct, estimatedTaxRate := taxRate,
      taxDragPct := round4 taxDragPct, daysToLongTerm := daysToLongTerm,
      requiredEdgeToRotate := round4 requiredEdge }

/-! ## FeatureEngine (worker/src/engine/features.ts) -/

structure Bar where
  date : ℤ
  openPrice : ℚ
  high : ℚ
  low : ℚ
  close : ℚ
  volume : ℤ
deriving DecidableEq, Repr

instance : Inhabited Bar := ⟨⟨0, 0, 0, 0, 0, 0⟩⟩

structure ComputedFeatures where
  sma20 : Option ℚ
  sma50 : Option ℚ
  sma200 : Option ℚ
  rsi14 : Option ℚ
  atr14 : Option ℚ
  rsVsSpy : Option ℚ
deriving DecidableEq, Repr

def RS_LOOKBACK_DAYS : ℕ := 20

/-- xs.slice(-n): the last n elements (the whole list when n ≥ length). -/
def lastN (xs : List ℚ) (n : ℕ) : List ℚ := xs.drop (xs.length - n)

/-- bars.slice(-n) for bar lists. -/
def lastNBars (xs : List Bar) (n : ℕ) : List Bar := xs.drop (xs.length - n)

/-- The close-to-close change list bars[i].close − bars[i−1].close, i = 1... -/
def closeChanges : List Bar → List ℚ
  | a :: b :: rest => (b.close - a.close) :: closeChanges (b :: rest)
  | _ => []

/-- `computeSMA(bars, period)`. -/
def computeSMA (bars : List Bar) (period : ℕ) : Option ℚ :=
  if bars.length < period then none
  else some (((lastNBars bars period).map Bar.close).sum / period)

/-- The `gains` accumulator of computeRSI over a change list. -/
def gainsOf (changes : List ℚ) : ℚ := (changes.map fun c => if 0 < c then c else 0).sum

/-- The `losses` accumulator of computeRSI over a change list. -/
def lossesOf (changes : List ℚ) : ℚ := (changes.map fun c => if 0 < c then 0 else -c).sum

def avgGainOf (bars : List Bar) (period : ℕ) : ℚ :=
  gainsOf (lastN (closeChanges bars) period) / period

def avgLossOf (bars : List Bar) (period : ℕ) : ℚ :=
  lossesOf (lastN (closeChanges bars) period) / period

/-- `computeRSI(bars, period)`. -/
def computeRSI (bars : List Bar) (period : ℕ) : Option ℚ :=
  if bars.length < period + 1 then none
  else if avgLossOf bars period = 0 then some 100
  else some (100 - 100 / (1 + avgGainOf bars period / avgLossOf bars period))

/-- The true-range list of computeATR. -/
def trueRangeList : List Bar → List ℚ
  | a :: b :: rest =>
      max (b.high - b.low) (max |b.high - a.close| |b.low - a.close|) ::
        trueRangeList (b :: rest)
  | _ => []

/-- `computeATR(bars, period)`. -/
def computeATR (bars : List Bar) (period : ℕ) : Option ℚ :=
  if bars.length < period + 1 then none
  else some ((lastN (trueRangeList bars) period).sum / period)

/-- `computeRelativeStrength(stockBars, spyBars, lookback)` (per-symbol fallback). -/
def computeRelativeStrength (stockBars spyBars : List Bar) (lookback : ℕ) : ℚ :=
  let stockRecent := lastNBars stockBars lookback
  let spyRecent := lastNBars spyBars lookback
  if stockRecent.length < lookback ∨ spyRecent.length < lookback then 50
  else
    let stockReturn :=
      ((stockRecent.getLastD default).close - (stockRecent.headD default).close) /
        (stockRecent.headD default).close
    let spyReturn :=
      ((spyRecent.getLastD default).close - (spyRecent.headD default).close) /
        (spyRecent.headD default).close
    let rsRel := if spyReturn ≠ 0 then stockReturn / spyReturn else 1
    round2 (min 100 (max 0 (50 + (rsRel - 1) * 50)))

/-- `computeFeatures(symbol, asOfDate, spyBars)`: the database fetch (the most
recent ≤ 200 bars, reversed to chronological order) is passed in as
`chronoBars`; the optional SPY history as `spyBars`. -/
def computeFeatures (chronoBars : List Bar) (spyBars : Option (List Bar)) : ComputedFeatures :=
  if chronoBars.length < 20 then
    { sma20 := none, sma50 := none, sma200 := none,
      rsi14 := none, atr14 := none, rsVsSpy := none }
  else
    { sma20 := computeSMA chronoBars 20,
      sma50 := if 50 ≤ chronoBars.length then computeSMA chronoBars 50 else none,
      sma200 := if 200 ≤ chronoBars.length then computeSMA chronoBars 200 else none,
      rsi14 := computeRSI chronoBars 14,
      atr14 := computeATR chronoBars 14,
      rsVsSpy :=
        match spyBars with
        | some sb =>
            if RS_LOOKBACK_DAYS ≤ sb.length ∧ RS_LOOKBACK_DAYS ≤ chronoBars.length then
              some (computeRelativeStrength chronoBars sb RS_LOOKBACK_DAYS)
            else none
        | none => none }

/-- A JS division whose result is not a real number when the denominator is 0
(0/0 is NaN), modelled as `none`. -/
def jsDivOpt (a b : ℚ) : Option ℚ := if b = 0 then none else some (a / b)

/-- Phase 2 of computeFeaturesForUniverse: rsRatio = return20d / spyReturn20d,
or 1 when spyReturn20d is 0. -/
def rsRatiosOf (returns : List ℚ) (spyReturn : ℚ) : List ℚ :=
  returns.map fun r => if spyReturn ≠ 0 then r / spyReturn else 1

/-- `Math.round((i / (count − 1)) * 100)` for rank i among count ranked
symbols; `none` models the NaN produced by 0/0 when count = 1. -/
def rankPercentile (i count : ℕ) : Option ℚ :=
  (jsDivOpt (i : ℚ) ((count - 1 : ℕ) : ℚ)).map fun q => (jsRound (q * 100) : ℚ)

/-- The percentiles written back to `rsVsSpy` in phase 2, listed in
ascending-ratio order: element i is assigned to the symbol ranked i. -/
def assignedPercentiles (ratios : List ℚ) : List (Option ℚ) :=
  let sorted := List.insertionSort (fun a b => a ≤ b) ratios
  (List.range sorted.length).map fun i => rankPercentile i sorted.length

/-! ## ScoringEngine (worker/src/engine/scoring.ts) -/

structure ScoringWeights where
  trend : ℚ
  relativeStrength : ℚ
  volatility : ℚ
  drawdownRisk : ℚ
  liquidity : ℚ
  catalyst : ℚ
deriving DecidableEq, Repr

def DEFAULT_WEIGHTS : ScoringWeights :=
  { trend := 30, relativeStrength := 20, volatility := 15,
    drawdownRisk := 15, liquidity := 10, catalyst := 10 }

/-- The Feature database row read by the scoring and signal engines: the
technical fields from the FeatureEngine plus externally supplied semantic
fields. -/
structure FeatureSet where
  sma20 : Option ℚ
  sma50 : Option ℚ
  sma200 : Option ℚ
  rsi14 : Option ℚ
  atr14 : Option ℚ
  rsVsSpy : Option ℚ
  newsSentiment7d : Option ℚ
  newsSentiment30d : Option ℚ
  tailRiskScore14d : Option ℚ
  catalystMomentum : Option ℚ
  earningsWithin5d : Bool
  earningsWithin10d : Bool
deriving DecidableEq, Repr

/-- Symbolic stand-ins for the pushed reason / warning message strings. -/
inductive Reason where
  | smaBullish
  | smaBearish
  | strongRelStrength
  | volAcceptable
  | rsiOversold
  | rsiOverbought
  | rsiHealthy
  | liquidityPassed
  | positiveCatalyst
  | noFeatures
deriving DecidableEq, Repr

/-- `scoreTrend`: (score, reasons pushed, warnings pushed). The JS guard
`features.sma50 && features.sma200` is a truthiness check, so a 0-valued SMA
also falls to the neutral default. -/
def scoreTrend (f : FeatureSet) (maxScore : ℚ) : ℚ × List Reason × List Reason :=
  if jsTruthy f.sma50 && jsTruthy f.sma200 then
    if f.sma200.getD 0 < f.sma50.getD 0 then
      ((jsRound (maxScore * (8/10)) : ℚ), [Reason.smaBullish], [])
    else
      ((jsRound (maxScore * (3/10)) : ℚ), [], [Reason.smaBearish])
  else ((jsRound (maxScore * (1/2)) : ℚ), [], [])

/-- `scoreRelativeStrength`: the null branch (`!features.rsVsSpy`, which also
catches percentile 0) returns unrounded; otherwise Math.round(max × pct). -/
def scoreRelativeStrength (f : FeatureSet) (maxScore : ℚ) : ℚ × List Reason :=
  if !(jsTruthy f.rsVsSpy) then (maxScore * (1/2), [])
  else
    ((jsRound (maxScore * (f.rsVsSpy.getD 0 / 100)) : ℚ),
      if 7/10 < f.rsVsSpy.getD 0 / 100 then [Reason.strongRelStrength] else [])

/-- `scoreVolatility`: placeholder static band. -/
def scoreVolatility (f : FeatureSet) (maxScore : ℚ) : ℚ × List Reason :=
  if !(jsTruthy f.atr14) then (maxScore * (1/2), [])
  else ((jsRound (maxScore * (7/10)) : ℚ), [Reason.volAcceptable])

/-- `scoreDrawdownRisk` from RSI bands. -/
def scoreDrawdownRisk (f : FeatureSet) (maxScore : ℚ) : ℚ × List Reason × List Reason :=
  if !(jsTruthy f.rsi14) then (maxScore * (1/2), [], [])
  else
    let r := f.rsi14.getD 0
    if r < 30 then ((jsRound (maxScore * (3/10)) : ℚ), [], [Reason.rsiOversold])
    else if 70 < r then ((jsRound (maxScore * (4/10)) : ℚ), [], [Reason.rsiOverbought])
    else if 40 ≤ r ∧ r ≤ 60 then ((jsRound (maxScore * (9/10)) : ℚ), [Reason.rsiHealthy], [])
    else ((jsRound (maxScore * (1/2)) : ℚ), [], [])

/-- `scoreLiquidity`: placeholder, always 0.8 × max. -/
def scoreLiquidity (maxScore : ℚ) : ℚ × List Reason :=
  ((jsRound (maxScore * (8/10)) : ℚ), [Reason.liquidityPassed])

/-- `scoreCatalyst` from semantic catalyst momentum. -/
def scoreCatalyst (f : FeatureSet) (maxScore : ℚ) : ℚ × List Reason :=
  if jsTruthy f.catalystMomentum && decide (0 < f.catalystMomentum.getD 0) then
    ((jsRound (maxScore * (8/10)) : ℚ), [Reason.positiveCatalyst])
  else ((jsRound (maxScore * (1/2)) : ℚ), [])

inductive Confidence
  | LOW
  | MEDIUM
  | HIGH
deriving DecidableEq, Repr

structure Projection where
  horizonDays : ℕ
  expectedMovePct : ℚ
  expectedRangeLow : ℚ
  expectedRangeHigh : ℚ
  confidence : Confidence
  notes : List Reason
deriving DecidableEq, Repr

/-- `computeProjection(features, swingScore)`; `features.atr14 || 0`. -/
def computeProjection (atr14 : Option ℚ) (swingScore : ℚ) : Projection :=
  let atr := if jsTruthy atr14 then atr14.getD 0 else 0
  let horizonDays : ℕ := if 70 < swingScore then 40 else if 50 < swingScore then 30 else 20
  let expectedMovePct := atr * ((horizonDays : ℚ) / 14)
  { horizonDays := horizonDays,
    expectedMovePct := round2 expectedMovePct,
    expectedRangeLow := round2 (-expectedMovePct * (1/2)),
    expectedRangeHigh := round2 (expectedMovePct * (3/2)),
    confidence := if 70 < swingScore then Confidence.HIGH
      else if 50 < swingScore then Confidence.MEDIUM else Confidence.LOW,
    notes := [] }

structure Components where
  trend : ℚ
  relativeStrength : ℚ
  volatility : ℚ
  drawdownRisk : ℚ
  liquidity : ℚ
  catalyst : ℚ
deriving DecidableEq, Repr

/-- `Object.values(components).reduce((a, b) => a + b, 0)`. -/
def Components.total (c : Components) : ℚ :=
  c.trend + c.relativeStrength + c.volatility + c.drawdownRisk + c.liquidity + c.catalyst

structure ScoreResult where
  swingScore : ℚ
  components : Components
  topReasons : List Reason
  warnings : List Reason
  projection : Projection
deriving DecidableEq, Repr

/-- The features-present body of `scoreCandidate`: six components, reasons in
push order capped at 3, warnings uncapped, sum into swingScore. -/
def scoreFeatures (f : FeatureSet) (w : ScoringWeights) : ScoreResult :=
  let t := scoreTrend f w.trend
  let rs := scoreRelativeStrength f w.relativeStrength
  let v := scoreVolatility f w.volatility
  let d := scoreDrawdownRisk f w.drawdownRisk
  let l := scoreLiquidity w.liquidity
  let c := scoreCatalyst f w.catalyst
  let components : Components :=
    { trend := t.1, relativeStrength := rs.1, volatility := v.1,
      drawdownRisk := d.1, liquidity := l.1, catalyst := c.1 }
  let reasons := t.2.1 ++ rs.2 ++ v.2 ++ d.2.1 ++ l.2 ++ c.2
  let warnings := t.2.2 ++ d.2.2
  { swingScore := components.total, components := components,
    topReasons := reasons.take 3, warnings := warnings,
    projection := computeProjection f.atr14 components.total }

/-- `createEmptyScore(symbol, reason)`; the empty JS components object is the
all-zero record. -/
def createEmptyScore (reason : Reason) : ScoreResult :=
  { swingScore := 0,
    components := { trend := 0, relativeStrength := 0, volatility := 0,
                    drawdownRisk := 0, liquidity := 0, catalyst := 0 },
    topReasons := [], warnings := [reason],
    projection := { horizonDays := 0, expectedMovePct := 0, expectedRangeLow := 0,
                    expectedRangeHigh := 0, confidence := Confidence.LOW,
                    notes := [reason] } }

/-! ## UniverseFilter (worker/src/engine/universe.ts) -/

inductive DefenseClassification
  | NON_DEFENSE
  | DEFENSE_SECONDARY
  | DEFENSE_PRIMARY
deriving DecidableEq, Repr

structure Ticker where
  symbol : String
  enabled : Bool
  defenseClassification : DefenseClassification
deriving DecidableEq, Repr

/-- `getTradableUniverse()`: enabled tickers whose classification is not
DEFENSE_PRIMARY; the ticker table is passed in explicitly. -/
def getTradableUniverse (tickers : List Ticker) : List String :=
  (tickers.filter fun t =>
    t.enabled &&
      decide (t.defenseClassification ≠ DefenseClassification.DEFENSE_PRIMARY)).map
    Ticker.symbol

/-- The error thrown by scoreCandidate on a DEFENSE_PRIMARY symbol. -/
inductive ScoreError where
  | defensePrimary (symbol : String)
deriving DecidableEq, Repr

/-- `scoreCandidate(symbol, asOfDate, weights)`: the two database reads (the
symbol's classification and its latest feature row) are explicit arguments;
the thrown Error is `Except.error`. -/
def scoreCandidate (symbol : String) (cls : Option DefenseClassification)
    (features : Option FeatureSet) (w : ScoringWeights) : Except ScoreError ScoreResult :=
  if cls = some DefenseClassification.DEFENSE_PRIMARY then
    Except.error (ScoreError.defensePrimary symbol)
  else
    match features with
    | none => Except.ok (createEmptyScore Reason.noFeatures)
    | some f => Except.ok (scoreFeatures f w)

/-- The database rows scoreCandidate would read for one symbol. -/
structure SymbolData where
  cls : Option DefenseClassification
  features : Option FeatureSet

/-- The per-symbol try/catch loop of `scoreUniverse`: successful
(symbol, swingScore) pairs and caught per-symbol errors, in input order. -/
def scoreUniverseRun (db : String → SymbolData) (w : ScoringWeights) :
    List String → List (String × ℚ) × List (String × ScoreError)
  | [] => ([], [])
  | s :: rest =>
    let tailRes := scoreUniverseRun db w rest
    match scoreCandidate s (db s).cls (db s).features w with
    | Except.ok r => ((s, r.swingScore) :: tailRes.1, tailRes.2)
    | Except.error e => (tailRes.1, (s, e) :: tailRes.2)

structure UniverseRunSummary where
  scored : ℕ
  errors : List (String × ScoreError)
  topScores : List (String × ℚ)

def sortByScoreDesc (xs : List (String × ℚ)) : List (String × ℚ) :=
  List.insertionSort (fun a b => b.2 ≤ a.2) xs

/-- `scoreUniverse(symbols, asOfDate, weights)` summary (persistence elided). -/
def scoreUniverse (db : String → SymbolData) (symbols : List String)
    (w : ScoringWeights) : UniverseRunSummary :=
  let run := scoreUniverseRun db w symbols
  { scored := run.1.length, errors := run.2,
    topScores := (sortByScoreDesc run.1).take 10 }

/-! ## SignalEngine (worker/src/engine/signals.ts) -/

inductive SellSignalLevel
  | NONE
  | WATCH
  | SELL
  | STRONG_SELL
deriving DecidableEq, Repr

inductive SellReason
  | elevatedTailRisk
  | earningsGap5d
  | earningsGap10d
  | favorable
  | narrowing
  | unfavorable
  | poor
deriving DecidableEq, Repr

structure SignalResult where
  sellSignalLevel : SellSignalLevel
  asymmetry : ℚ
  upsideRemainingPct : ℚ
  downsideTailPct : ℚ
  reasons : List SellReason
deriving DecidableEq, Repr

def ASYMMETRY_NONE : ℚ := 2

def ASYMMETRY_WATCH : ℚ := 12/10

def ASYMMETRY_SELL : ℚ := 8/10

/-- `features?.atr14 || currentPrice * 0.02` (0 is falsy, so a 0 ATR also
falls back to the 2 percent default). -/
def sellAtr (features : Option FeatureSet) (currentPrice : ℚ) : ℚ :=
  let a := features.bind fun f => f.atr14
  if jsTruthy a then a.getD 0 else currentPrice * (2/100)

/-- `upsideRemainingPct = atr * 3 / currentPrice`. -/
def sellUpside (features : Option FeatureSet) (currentPrice : ℚ) : ℚ :=
  sellAtr features currentPrice * 3 / currentPrice

/-- `downsideTailPct`: base 2 ATR over price, then the tail-risk multiplier,
then the mutually exclusive earnings-window multiplier. -/
def sellDownsideTail (features : Option FeatureSet) (currentPrice : ℚ) : ℚ :=
  let base := sellAtr features currentPrice * 2 / currentPrice
  let t := features.bind fun f => f.tailRiskScore14d
  let afterTail :=
    if jsTruthy t && decide (0 < t.getD 0) then base * (1 + t.getD 0 * (1/10)) else base
  if (features.map fun f => f.earningsWithin5d).getD false then afterTail * (3/2)
  else if (features.map fun f => f.earningsWithin10d).getD false then afterTail * (12/10)
  else afterTail

/-- `asymmetry = downsideTailPct > 0 ? upside / downside : 10`. -/
def sellAsymmetry (features : Option FeatureSet) (currentPrice : ℚ) : ℚ :=
  if 0 < sellDownsideTail features currentPrice then
    sellUpside features currentPrice / sellDownsideTail features currentPrice
  else 10

/-- The top-down level mapping over the asymmetry thresholds. -/
def sellLevelOf (asym : ℚ) : SellSignalLevel :=
  if ASYMMETRY_NONE < asym then SellSignalLevel.NONE
  else if ASYMMETRY_WATCH < asym then SellSignalLevel.WATCH
  else if ASYMMETRY_SELL < asym then SellSignalLevel.SELL
  else SellSignalLevel.STRONG_SELL

/-- `computeSellSignal(symbol, currentPrice, asOfDate)`: the latest feature
row is an explicit argument; the returned pct fields are rendered as rounded
percentages as in the source. -/
def computeSellSignal (features : Option FeatureSet) (currentPrice : ℚ) : SignalResult :=
  let asym := sellAsymmetry features currentPrice
  let t := features.bind fun f => f.tailRiskScore14d
  let tailReasons : List SellReason :=
    if jsTruthy t && decide (0 < t.getD 0) then [SellReason.elevatedTailRisk] else []
  let earnReasons : List SellReason :=
    if (features.map fun f => f.earningsWithin5d).getD false then [SellReason.earningsGap5d]
    else if (features.map fun f => f.earningsWithin10d).getD false then
      [SellReason.earningsGap10d]
    else []
  let levelReasons : List SellReason :=
    if ASYMMETRY_NONE < asym then [SellReason.favorable]
    else if ASYMMETRY_WATCH < asym then [SellReason.narrowing]
    else if ASYMMETRY_SELL < asym then [SellReason.unfavorable]
    else [SellReason.poor]
  { sellSignalLevel := sellLevelOf asym,
    asymmetry := asym,
    upsideRemainingPct := toPct2 (sellUpside features currentPrice),
    downsideTailPct := toPct2 (sellDownsideTail features currentPrice),
    reasons := tailReasons ++ earnReasons ++ levelReasons }

inductive Recommendation
  | HOLD
  | ROTATE
deriving DecidableEq, Repr

/-- Symbolic stand-ins for the rotation reason strings. -/
inductive RotReason
  | scoresHigherEnough
  | taxCostFactored
  | nearLongTermNote
  | onlySlightlyHigher
  | remainsTopCandidate
  | holdingForLongTerm
deriving DecidableEq, Repr

structure RotationResult where
  recommendation : Recommendation
  rotateToSymbol : Option String
  reasons : List RotReason
  taxImpact : TaxImpact
deriving DecidableEq, Repr

/-- The default of the `rotateThreshold = 8` parameter. -/
def defaultRotateThreshold : ℚ := 8

/-- `computeRotationRecommendation(currentSymbol, currentPrice, entryDate,
entryPrice, bestCandidate, currentScore, rotateThreshold)`; the implicit
`new Date()` inside calculateTaxDrag is the explicit `nowMs`; `currentSymbol`
only feeds a message string and is not modelled. -/
def computeRotationRecommendation (nowMs entryMs : ℤ)
    (entryPrice currentPrice : ℚ) (bestCandidate : String × ℚ)
    (currentScore rotateThreshold : ℚ) : RotationResult :=
  let taxImpact := calculateTaxDrag nowMs entryMs entryPrice currentPrice
  let effectiveThreshold := rotateThreshold + taxImpact.requiredEdgeToRotate * 100
  let scoreDiff := bestCandidate.2 - currentScore
  if effectiveThreshold ≤ scoreDiff then
    { recommendation := Recommendation.ROTATE,
      rotateToSymbol := some bestCandidate.1,
      reasons := [RotReason.scoresHigherEnough] ++
        (if 0 < taxImpact.taxDragPct then [RotReason.taxCostFactored] else []) ++
        (if 0 < taxImpact.daysToLongTerm ∧ taxImpact.daysToLongTerm < 30 then
          [RotReason.nearLongTermNote] else []),
      taxImpact := taxImpact }
  else
    { recommendation := Recommendation.HOLD,
      rotateToSymbol := none,
      reasons :=
        (if 0 < scoreDiff then [RotReason.onlySlightlyHigher]
          else [RotReason.remainsTopCandidate]) ++
        (if 0 < taxImpact.daysToLongTerm ∧ taxImpact.daysToLongTerm < 30 then
          [RotReason.holdingForLongTerm] else []),
      taxImpact := taxImpact }

/-- A FeatureSet that is empty except for the rsVsSpy percentile. -/
def fsSimple (rs : Option ℚ) : FeatureSet :=
  { sma20 := none, sma50 := none, sma200 := none, rsi14 := none, atr14 := none,
    rsVsSpy := rs, newsSentiment7d := none, newsSentiment30d := none,
    tailRiskScore14d := none, catalystMomentum := none,
    earningsWithin5d := false, earningsWithin10d := false }

/-- A concrete holding FeatureSet for the C5 witness: ATR 2, tail risk 5,
earnings within 5 days. -/
def fsSell : FeatureSet :=
  { sma20 := none, sma50 := none, sma200 := none, rsi14 := none, atr14 := some 2,
    rsVsSpy := none, newsSentiment7d := none, newsSentiment30d := none,
    tailRiskScore14d := some 5, catalystMomentum := none,
    earningsWithin5d := true, earningsWithin10d := false }

/-- n bars with strictly rising closes 1, 2, ..., n. -/
def risingBars (n : ℕ) : List Bar :=
  (List.range n).map fun (i : ℕ) =>
    { date := (i:ℤ), openPrice := (i:ℚ) + 1, high := (i:ℚ) + 1, low := (i:ℚ) + 1,
      close := (i:ℚ) + 1, volume := 0 }

lemma jsRound_cast_nonneg {x : ℚ} (h : 0 ≤ x) : (0:ℚ) ≤ (jsRound x : ℚ) := by
  unfold jsRound
  have h2 : (0:ℤ) ≤ ⌊x + 1/2⌋ := Int.le_floor.mpr (by push_cast; linarith)
  exact_mod_cast h2

lemma jsRound_cast_le {x c : ℚ} (h : x ≤ c) (hc : ((⌊c + 1/2⌋ : ℤ) : ℚ) ≤ c) :
    (jsRound x : ℚ) ≤ c := by
  unfold jsRound
  have h3 : ⌊x + 1/2⌋ ≤ ⌊c + 1/2⌋ := Int.floor_le_floor (by linarith)
  calc ((⌊x + 1/2⌋ : ℤ) : ℚ) ≤ ((⌊c + 1/2⌋ : ℤ) : ℚ) := by exact_mod_cast h3
    _ ≤ c := hc

lemma scoreTrend_bounds (f : FeatureSet) :
    9 ≤ (scoreTrend f 30).1 ∧ (scoreTrend f 30).1 ≤ 24 := by
  unfold scoreTrend
  split_ifs <;> norm_num [jsRound]

lemma scoreVolatility_bounds (f : FeatureSet) :
    15/2 ≤ (scoreVolatility f 15).1 ∧ (scoreVolatility f 15).1 ≤ 11 := by
  unfold scoreVolatility
  split_ifs <;> norm_num [jsRound]

lemma scoreDrawdownRisk_bounds (f : FeatureSet) :
    5 ≤ (scoreDrawdownRisk f 15).1 ∧ (scoreDrawdownRisk f 15).1 ≤ 14 := by
  simp only [scoreDrawdownRisk]
  split_ifs <;> norm_num [jsRound]

lemma scoreLiquidity_val : (scoreLiquidity 10).1 = 8 := by
  norm_num [scoreLiquidity, jsRound]

lemma scoreCatalyst_bounds (f : FeatureSet) :
    5 ≤ (scoreCatalyst f 10).1 ∧ (scoreCatalyst f 10).1 ≤ 8 := by
  unfold scoreCatalyst
  split_ifs <;> norm_num [jsRound]

lemma scoreRelativeStrength_bounds (f : FeatureSet)
    (hrs : ∀ p, f.rsVsSpy = some p → 0 ≤ p ∧ p ≤ 100) :
    0 ≤ (scoreRelativeStrength f 20).1 ∧ (scoreRelativeStrength f 20).1 ≤ 20 := by
  unfold scoreRelativeStrength
  cases hfr : f.rsVsSpy with
  | none => norm_num [jsTruthy]
  | some p =>
    obtain ⟨h0, h100⟩ := hrs p hfr
    by_cases hz : p = 0
    · subst hz
      norm_num [jsTruthy]
    · have ht : jsTruthy (some p) = true := by simp [jsTruthy, hz]
      simp only [ht, Bool.not_true, Bool.false_eq_true, if_false, Option.getD_some]
      constructor
      · exact jsRound_cast_nonneg (by positivity)
      · refine jsRound_cast_le ?_ (by norm_num)
        linarith

lemma scoreCandidate_noFeatures (s : String) (cls : Option DefenseClassification)
    (w : ScoringWeights)
    (hcls : cls ≠ some DefenseClassification.DEFENSE_PRIMARY) :
    scoreCandidate s cls none w = Except.ok (createEmptyScore Reason.noFeatures) := by
  unfold scoreCandidate
  rw [if_neg hcls]

lemma scoreUniverseRun_length (db : String → SymbolData) (w : ScoringWeights)
    (symbols : List String) :
    (scoreUniverseRun db w symbols).1.length + (scoreUniverseRun db w symbols).2.length
      = symbols.length := by
  induction symbols with
  | nil => rfl
  | cons s rest ih =>
    simp only [scoreUniverseRun]
    cases h : scoreCandidate s (db s).cls (db s).features w <;>
      simp [h] <;> omega

lemma scoreUniverseRun_mem_noFeatures (db : String → SymbolData) (w : ScoringWeights)
    (symbols : List String) (s : String) (hs : s ∈ symbols)
    (hcls : (db s).cls ≠ some DefenseClassification.DEFENSE_PRIMARY)
    (hf : (db s).features = none) :
    (s, (0:ℚ)) ∈ (scoreUniverseRun db w symbols).1 := by
  induction symbols with
  | nil => cases hs
  | cons a rest ih =>
    simp only [scoreUniverseRun]
    rcases List.mem_cons.mp hs with rfl | hmem
    · have hsc : scoreCandidate s (db s).cls (db s).features w
          = Except.ok (createEmptyScore Reason.noFeatures) := by
        rw [hf]
        exact scoreCandidate_noFeatures s (db s).cls w hcls
      simp [hsc, createEmptyScore]
    · cases h : scoreCandidate a (db a).cls (db a).features w <;>
        simp [h, ih hmem]

lemma closeChanges_nonneg {bars : List Bar}
    (h : List.Chain' (fun a b => a.close ≤ b.close) bars) :
    ∀ c ∈ closeChanges bars, 0 ≤ c := by
  induction bars with
  | nil => intro c hc; simp [closeChanges] at hc
  | cons a rest ih =>
    cases rest with
    | nil => intro c hc; simp [closeChanges] at hc
    | cons b rest2 =>
      rw [List.chain'_cons] at h
      intro c hc
      simp only [closeChanges, List.mem_cons] at hc
      rcases hc with hceq | hmem
      · subst hceq
        linarith [h.1]
      · exact ih h.2 c hmem

lemma lossesOf_eq_zero {l : List ℚ} (h : ∀ c ∈ l, 0 ≤ c) : lossesOf l = 0 := by
  induction l with
  | nil => rfl
  | cons x xs ih =>
    have hx := h x (List.mem_cons_self x xs)
    have hxs := ih fun c hc => h c (List.mem_cons_of_mem x hc)
    unfold lossesOf at hxs ⊢
    rw [List.map_cons, List.sum_cons, hxs, add_zero]
    by_cases h0 : 0 < x
    · rw [if_pos h0]
    · rw [if_neg h0]
      have hx0 : x = 0 := le_antisymm (not_lt.mp h0) hx
      rw [hx0, neg_zero]

lemma risingBars_length (n : ℕ) : (risingBars n).length = n := by
  rw [risingBars, List.length_map, List.length_range]

lemma risingBars_chain (n : ℕ) :
    List.Chain' (fun a b => a.close ≤ b.close) (risingBars n) := by
  unfold risingBars
  rw [List.chain'_map]
  cases n with
  | zero => simp
  | succ m =>
    rw [List.chain'_range_succ]
    intro i _
    dsimp only
    push_cast
    linarith

lemma computeRSI_no_losses (bars : List Bar) (h : ¬ bars.length < 14 + 1)
    (hchain : List.Chain' (fun a b => a.close ≤ b.close) bars) :
    computeRSI bars 14 = some 100 := by
  have hloss : avgLossOf bars 14 = 0 := by
    have h0 : lossesOf (lastN (closeChanges bars) 14) = 0 := by
      refine lossesOf_eq_zero fun c hc => ?_
      simp only [lastN] at hc
      exact closeChanges_nonneg hchain c (List.drop_subset _ _ hc)
    unfold avgLossOf
    rw [h0, zero_div]
  unfold computeRSI
  rw [if_neg h, if_pos hloss]

lemma computeFeatures_short (bars : List Bar) (spy : Option (List Bar))
    (h : bars.length < 20) : (computeFeatures bars spy).rsi14 = none := by
  unfold computeFeatures
  rw [if_pos h]

/-- Claim C1: a DEFENSE_PRIMARY-classified symbol is never in the tradable
universe returned by getTradableUniverse, and scoreCandidate on a symbol whose
classification is DEFENSE_PRIMARY fails with a thrown error, never a score. -/
theorem C1_defense_primary_excluded (tickers : List Ticker) (s : String)
    (hall : ∀ t ∈ tickers, t.symbol = s →
      t.defenseClassification = DefenseClassification.DEFENSE_PRIMARY)
    (features : Option FeatureSet) (w : ScoringWeights) :
    s ∉ getTradableUniverse tickers ∧
    scoreCandidate s (some DefenseClassification.DEFENSE_PRIMARY) features w =
      Except.error (ScoreError.defensePrimary s) := by
  constructor
  · intro hmem
    unfold getTradableUniverse at hmem
    rw [List.mem_map] at hmem
    obtain ⟨t, ht, hts⟩ := hmem
    rw [List.mem_filter] at ht
    have hdp := hall t ht.1 hts
    have hflt := ht.2
    rw [hdp] at hflt
    simp at hflt
  · unfold scoreCandidate
    rw [if_pos rfl]

/-- Witness for C1: a ticker table where LMT is DEFENSE_PRIMARY and AAPL is not. -/
theorem C1_defense_primary_excluded_witness :
    (∀ t ∈ [Ticker.mk "LMT" true DefenseClassification.DEFENSE_PRIMARY,
            Ticker.mk "AAPL" true DefenseClassification.NON_DEFENSE],
      t.symbol = "LMT" →
        t.defenseClassification = DefenseClassification.DEFENSE_PRIMARY) ∧
    ("LMT" ∉ getTradableUniverse
        [Ticker.mk "LMT" true DefenseClassification.DEFENSE_PRIMARY,
         Ticker.mk "AAPL" true DefenseClassification.NON_DEFENSE] ∧
      scoreCandidate "LMT" (some DefenseClassification.DEFENSE_PRIMARY) none
          DEFAULT_WEIGHTS =
        Except.error (ScoreError.defensePrimary "LMT")) :=
  ⟨by decide,
   C1_defense_primary_excluded
     [Ticker.mk "LMT" true DefenseClassification.DEFENSE_PRIMARY,
      Ticker.mk "AAPL" true DefenseClassification.NON_DEFENSE]
     "LMT" (by decide) none DEFAULT_WEIGHTS⟩

/-- Claim C2: the rotation recommendation is ROTATE (with rotateToSymbol the
best candidate) iff scoreDiff ≥ rotateThreshold + requiredEdgeToRotate × 100,
equality included; otherwise HOLD; the default base threshold is 8. -/
theorem C2_rotate_iff_threshold (nowMs entryMs : ℤ) (entryPrice currentPrice : ℚ)
    (best : String × ℚ) (currentScore t : ℚ) :
    ((computeRotationRecommendation nowMs entryMs entryPrice currentPrice best
          currentScore t).recommendation = Recommendation.ROTATE ↔
      t + (calculateTaxDrag nowMs entryMs entryPrice currentPrice).requiredEdgeToRotate
          * 100 ≤ best.2 - currentScore) ∧
    ((computeRotationRecommendation nowMs entryMs entryPrice currentPrice best
          currentScore t).recommendation = Recommendation.HOLD ↔
      best.2 - currentScore <
        t + (calculateTaxDrag nowMs entryMs entryPrice currentPrice).requiredEdgeToRotate
          * 100) ∧
    ((computeRotationRecommendation nowMs entryMs entryPrice currentPrice best
          currentScore t).recommendation = Recommendation.ROTATE →
      (computeRotationRecommendation nowMs entryMs entryPrice currentPrice best
          currentScore t).rotateToSymbol = some best.1) ∧
    defaultRotateThreshold = 8 := by
  unfold computeRotationRecommendation
  by_cases h : t + (calculateTaxDrag nowMs entryMs entryPrice currentPrice).requiredEdgeToRotate
      * 100 ≤ best.2 - currentScore
  · rw [if_pos h]
    simp [h, not_lt.mpr h, defaultRotateThreshold]
  · rw [if_neg h]
    simp [h, not_le.mp h, defaultRotateThreshold]

/-- Claim C3: at a gain fraction that is zero or negative, `calculateTaxDrag`
returns taxDragPct = 0, estimatedTaxRate = 0 and requiredEdgeToRotate = 0.02
(the transaction buffer) exactly. -/
theorem C3_loss_no_tax_drag (nowMs entryMs : ℤ) (entryPrice currentPrice : ℚ)
    (_hp : 0 < entryPrice)
    (hg : gainPctOf entryPrice currentPrice ≤ 0) :
    (calculateTaxDrag nowMs entryMs entryPrice currentPrice).taxDragPct = 0 ∧
    (calculateTaxDrag nowMs entryMs entryPrice currentPrice).estimatedTaxRate = 0 ∧
    (calculateTaxDrag nowMs entryMs entryPrice currentPrice).requiredEdgeToRotate = 2/100 := by
  unfold calculateTaxDrag
  rw [if_pos hg]
  exact ⟨rfl, rfl, rfl⟩

/-- Witness for C3 at a concrete losing position (entry 100, current 90). -/
theorem C3_loss_no_tax_drag_witness :
    ((0:ℚ) < 100 ∧ gainPctOf 100 90 ≤ 0) ∧
    ((calculateTaxDrag 0 0 100 90).taxDragPct = 0 ∧
     (calculateTaxDrag 0 0 100 90).estimatedTaxRate = 0 ∧
     (calculateTaxDrag 0 0 100 90).requiredEdgeToRotate = 2/100) :=
  ⟨⟨by norm_num, by norm_num [gainPctOf]⟩,
   C3_loss_no_tax_drag 0 0 100 90 (by norm_num) (by norm_num [gainPctOf])⟩

/-- Claim C4 counterexample: at entry 3, current 4 (gain 1/3) held 200 days, the
returned taxDragPct is the 4-decimal rounding 0.1233, not gainPct × taxRate =
37/300 = 0.12333... exactly, so the claim's exact equality fails. -/
theorem C4_counterexample :
    (calculateTaxDrag 17280000000 0 3 4).taxDragPct = 1233/10000 ∧
    gainPctOf 3 4 * SHORT_TERM_TAX_RATE = 37/300 ∧
    (calculateTaxDrag 17280000000 0 3 4).estimatedTaxRate = SHORT_TERM_TAX_RATE ∧
    (calculateTaxDrag 17280000000 0 3 4).taxDragPct ≠ gainPctOf 3 4 * SHORT_TERM_TAX_RATE := by
  norm_num [calculateTaxDrag, holdingDaysOf, gainPctOf, jsFloor, jsRound, round4,
    MS_PER_DAY, SHORT_TERM_TAX_RATE, LONG_TERM_TAX_RATE, TRANSACTION_BUFFER]

/-- Claim C4 (amended): at a gain, the tax rate is 0.15 iff holdingDays ≥ 365 and
0.37 otherwise; taxDragPct is gainPct × taxRate rounded to 4 decimals; and
requiredEdgeToRotate is gainPct × taxRate + 0.02, plus 0.5 × gainPct × (0.37 − 0.15)
exactly when the holding is not long-term, daysToLongTerm ≤ 30 and gainPct > 0.10,
the sum rounded to 4 decimals. -/
theorem C4_gain_tax_drag (nowMs entryMs : ℤ) (entryPrice currentPrice : ℚ)
    (_hp : 0 < entryPrice)
    (hg : 0 < gainPctOf entryPrice currentPrice) :
    (calculateTaxDrag nowMs entryMs entryPrice currentPrice).estimatedTaxRate =
      (if 365 ≤ holdingDaysOf nowMs entryMs then 15/100 else 37/100) ∧
    (calculateTaxDrag nowMs entryMs entryPrice currentPrice).taxDragPct =
      round4 (gainPctOf entryPrice currentPrice *
        (if 365 ≤ holdingDaysOf nowMs entryMs then 15/100 else 37/100)) ∧
    (calculateTaxDrag nowMs entryMs entryPrice currentPrice).requiredEdgeToRotate =
      round4 (gainPctOf entryPrice currentPrice *
          (if 365 ≤ holdingDaysOf nowMs entryMs then 15/100 else 37/100) + 2/100 +
        (if ¬ 365 ≤ holdingDaysOf nowMs entryMs ∧
            max 0 (365 - holdingDaysOf nowMs entryMs) ≤ 30 ∧
            1/10 < gainPctOf entryPrice currentPrice
          then gainPctOf entryPrice currentPrice * ((37:ℚ)/100 - 15/100) * (1/2)
          else 0)) := by
  have hg' : ¬ gainPctOf entryPrice currentPrice ≤ 0 := not_le.mpr hg
  unfold calculateTaxDrag
  rw [if_neg hg']
  refine ⟨?_, ?_, ?_⟩
  · simp only [LONG_TERM_TAX_RATE, SHORT_TERM_TAX_RATE]
  · simp only [LONG_TERM_TAX_RATE, SHORT_TERM_TAX_RATE]
  · simp only [LONG_TERM_TAX_RATE, SHORT_TERM_TAX_RATE, TRANSACTION_BUFFER]
    by_cases hC : ¬ 365 ≤ holdingDaysOf nowMs entryMs ∧
        max 0 (365 - holdingDaysOf nowMs entryMs) ≤ 30 ∧
        1/10 < gainPctOf entryPrice currentPrice
    · rw [if_pos hC, if_pos hC]
    · rw [if_neg hC, if_neg hC]
      rw [add_zero]

/-- Witness for C4 at the spec's scenario: entry 200 days ago at 150, current 180. -/
theorem C4_gain_tax_drag_witness :
    (0 < gainPctOf 150 180) ∧
    (calculateTaxDrag 17280000000 0 150 180).estimatedTaxRate = 37/100 ∧
    (calculateTaxDrag 17280000000 0 150 180).taxDragPct = 37/500 ∧
    (calculateTaxDrag 17280000000 0 150 180).daysToLongTerm = 165 := by
  have h := C4_gain_tax_drag 17280000000 0 150 180 (by norm_num) (by norm_num [gainPctOf])
  refine ⟨by norm_num [gainPctOf], ?_, ?_,
    by norm_num [calculateTaxDrag, holdingDaysOf, gainPctOf, jsFloor, MS_PER_DAY]⟩
  · rw [h.1]
    norm_num [holdingDaysOf, jsFloor, MS_PER_DAY]
  · rw [h.2.1]
    norm_num [holdingDaysOf, gainPctOf, jsFloor, jsRound, round4, MS_PER_DAY]

/-- Claim C5: with features present and a nonzero ATR, downsideTailPct is
atr × 2 / price scaled by the tail-risk multiplier (1 + tailRisk × 0.1, only
when tailRisk > 0) and by the mutually exclusive earnings multiplier (1.5
within 5 days, else 1.2 within 10 days); asymmetry is upside/downside with the
sentinel 10 when the downside is 0; and the level is the first match of the
2.0 / 1.2 / 0.8 cut chain, so 2.5 maps to NONE, 1.0 to SELL, 0.5 to
STRONG_SELL. -/
theorem C5_sell_signal (f : FeatureSet) (currentPrice a : ℚ)
    (ha : f.atr14 = some a) (ha0 : 0 < a) (hp : 0 < currentPrice) :
    (sellDownsideTail (some f) currentPrice =
      a * 2 / currentPrice *
        (match f.tailRiskScore14d with
          | some v => if 0 < v then 1 + v * (1/10) else 1
          | none => 1) *
        (if f.earningsWithin5d then 3/2
          else if f.earningsWithin10d then 12/10 else 1)) ∧
    (0 < sellDownsideTail (some f) currentPrice) ∧
    ((computeSellSignal (some f) currentPrice).asymmetry =
      sellUpside (some f) currentPrice / sellDownsideTail (some f) currentPrice) ∧
    (∀ g q, sellDownsideTail g q = 0 → sellAsymmetry g q = 10) ∧
    ((computeSellSignal (some f) currentPrice).sellSignalLevel =
      (if 2 < (computeSellSignal (some f) currentPrice).asymmetry then
          SellSignalLevel.NONE
        else if 12/10 < (computeSellSignal (some f) currentPrice).asymmetry then
          SellSignalLevel.WATCH
        else if 8/10 < (computeSellSignal (some f) currentPrice).asymmetry then
          SellSignalLevel.SELL
        else SellSignalLevel.STRONG_SELL)) ∧
    (sellLevelOf (5/2) = SellSignalLevel.NONE ∧ sellLevelOf 1 = SellSignalLevel.SELL ∧
      sellLevelOf (1/2) = SellSignalLevel.STRONG_SELL) := by
  have hatr : sellAtr (some f) currentPrice = a := by
    simp [sellAtr, ha, jsTruthy, ha0.ne']
  have hdown : sellDownsideTail (some f) currentPrice =
      a * 2 / currentPrice *
        (match f.tailRiskScore14d with
          | some v => if 0 < v then 1 + v * (1/10) else 1
          | none => 1) *
        (if f.earningsWithin5d then 3/2
          else if f.earningsWithin10d then 12/10 else 1) := by
    unfold sellDownsideTail
    rw [hatr]
    have hbind : ((some f).bind fun g => g.tailRiskScore14d) = f.tailRiskScore14d := rfl
    have hmap5 : ((some f).map fun g => g.earningsWithin5d).getD false
        = f.earningsWithin5d := rfl
    have hmap10 : ((some f).map fun g => g.earningsWithin10d).getD false
        = f.earningsWithin10d := rfl
    rw [hbind, hmap5, hmap10]
    cases htr : f.tailRiskScore14d with
    | none =>
      cases h5 : f.earningsWithin5d <;> cases h10 : f.earningsWithin10d <;>
        simp [jsTruthy]
    | some v =>
      by_cases hv : 0 < v
      · cases h5 : f.earningsWithin5d <;> cases h10 : f.earningsWithin10d <;>
          simp [jsTruthy, hv, hv.ne']
      · cases h5 : f.earningsWithin5d <;> cases h10 : f.earningsWithin10d <;>
          simp [jsTruthy, hv]
  have hbase : 0 < a * 2 / currentPrice := div_pos (by linarith) hp
  have htail : 0 < (match f.tailRiskScore14d with
      | some v => if 0 < v then 1 + v * (1/10) else 1
      | none => 1) := by
    cases htr : f.tailRiskScore14d with
    | none => norm_num
    | some v =>
      dsimp only
      split_ifs with hv
      · linarith
      · norm_num
  have hearn : 0 < (if f.earningsWithin5d then (3:ℚ)/2
      else if f.earningsWithin10d then 12/10 else 1) := by
    split_ifs <;> norm_num
  have hpos : 0 < sellDownsideTail (some f) currentPrice := by
    rw [hdown]
    exact mul_pos (mul_pos hbase htail) hearn
  have hasym : (computeSellSignal (some f) currentPrice).asymmetry =
      sellUpside (some f) currentPrice / sellDownsideTail (some f) currentPrice := by
    show sellAsymmetry (some f) currentPrice = _
    unfold sellAsymmetry
    rw [if_pos hpos]
  refine ⟨hdown, hpos, hasym, ?_, ?_, ?_, ?_, ?_⟩
  · intro g q h0
    unfold sellAsymmetry
    rw [if_neg (by rw [h0]; exact lt_irrefl 0)]
  · show sellLevelOf (sellAsymmetry (some f) currentPrice) = _
    have heq : (computeSellSignal (some f) currentPrice).asymmetry
        = sellAsymmetry (some f) currentPrice := rfl
    rw [heq]
    unfold sellLevelOf ASYMMETRY_NONE ASYMMETRY_WATCH ASYMMETRY_SELL
    rfl
  · norm_num [sellLevelOf, ASYMMETRY_NONE, ASYMMETRY_WATCH, ASYMMETRY_SELL]
  · norm_num [sellLevelOf, ASYMMETRY_NONE, ASYMMETRY_WATCH, ASYMMETRY_SELL]
  · norm_num [sellLevelOf, ASYMMETRY_NONE, ASYMMETRY_WATCH, ASYMMETRY_SELL]

/-- Witness for C5 at a concrete FeatureSet and price. -/
theorem C5_sell_signal_witness :
    (fsSell.atr14 = some 2 ∧ (0:ℚ) < 2 ∧ (0:ℚ) < 100) ∧
    sellDownsideTail (some fsSell) 100 = (2:ℚ) * 2 / 100 * (1 + 5 * (1/10)) * (3/2) := by
  have h := C5_sell_signal fsSell 100 2 rfl (by norm_num) (by norm_num)
  refine ⟨⟨rfl, by norm_num, by norm_num⟩, ?_⟩
  rw [h.1]
  norm_num [fsSell]

/-- Claim C6: for a FeatureSet with available features and the default
weights, the swingScore is the sum (not average) of the six components, each
component lies within [0, its maximum] (30/20/15/15/10/10), and the swingScore
lies in [0, 100]. The rsVsSpy percentile is assumed in range, as produced by
the FeatureEngine. -/
theorem C6_swing_score_sum_and_bounds (f : FeatureSet)
    (hrs : ∀ p, f.rsVsSpy = some p → 0 ≤ p ∧ p ≤ 100) :
    ((scoreFeatures f DEFAULT_WEIGHTS).swingScore =
      (scoreFeatures f DEFAULT_WEIGHTS).components.trend +
        (scoreFeatures f DEFAULT_WEIGHTS).components.relativeStrength +
        (scoreFeatures f DEFAULT_WEIGHTS).components.volatility +
        (scoreFeatures f DEFAULT_WEIGHTS).components.drawdownRisk +
        (scoreFeatures f DEFAULT_WEIGHTS).components.liquidity +
        (scoreFeatures f DEFAULT_WEIGHTS).components.catalyst) ∧
    (0 ≤ (scoreFeatures f DEFAULT_WEIGHTS).components.trend ∧
      (scoreFeatures f DEFAULT_WEIGHTS).components.trend ≤ 30) ∧
    (0 ≤ (scoreFeatures f DEFAULT_WEIGHTS).components.relativeStrength ∧
      (scoreFeatures f DEFAULT_WEIGHTS).components.relativeStrength ≤ 20) ∧
    (0 ≤ (scoreFeatures f DEFAULT_WEIGHTS).components.volatility ∧
      (scoreFeatures f DEFAULT_WEIGHTS).components.volatility ≤ 15) ∧
    (0 ≤ (scoreFeatures f DEFAULT_WEIGHTS).components.drawdownRisk ∧
      (scoreFeatures f DEFAULT_WEIGHTS).components.drawdownRisk ≤ 15) ∧
    (0 ≤ (scoreFeatures f DEFAULT_WEIGHTS).components.liquidity ∧
      (scoreFeatures f DEFAULT_WEIGHTS).components.liquidity ≤ 10) ∧
    (0 ≤ (scoreFeatures f DEFAULT_WEIGHTS).components.catalyst ∧
      (scoreFeatures f DEFAULT_WEIGHTS).components.catalyst ≤ 10) ∧
    (0 ≤ (scoreFeatures f DEFAULT_WEIGHTS).swingScore ∧
      (scoreFeatures f DEFAULT_WEIGHTS).swingScore ≤ 100) := by
  have hT := scoreTrend_bounds f
  have hR := scoreRelativeStrength_bounds f hrs
  have hV := scoreVolatility_bounds f
  have hD := scoreDrawdownRisk_bounds f
  have hC := scoreCatalyst_bounds f
  have eT : (scoreFeatures f DEFAULT_WEIGHTS).components.trend = (scoreTrend f 30).1 := rfl
  have eR : (scoreFeatures f DEFAULT_WEIGHTS).components.relativeStrength
      = (scoreRelativeStrength f 20).1 := rfl
  have eV : (scoreFeatures f DEFAULT_WEIGHTS).components.volatility
      = (scoreVolatility f 15).1 := rfl
  have eD : (scoreFeatures f DEFAULT_WEIGHTS).components.drawdownRisk
      = (scoreDrawdownRisk f 15).1 := rfl
  have eL : (scoreFeatures f DEFAULT_WEIGHTS).components.liquidity
      = (scoreLiquidity 10).1 := rfl
  have eC : (scoreFeatures f DEFAULT_WEIGHTS).components.catalyst
      = (scoreCatalyst f 10).1 := rfl
  have eS : (scoreFeatures f DEFAULT_WEIGHTS).swingScore
      = (scoreTrend f 30).1 + (scoreRelativeStrength f 20).1 + (scoreVolatility f 15).1
        + (scoreDrawdownRisk f 15).1 + (scoreLiquidity 10).1 + (scoreCatalyst f 10).1 := rfl
  rw [eT, eR, eV, eD, eL, eC, eS, scoreLiquidity_val]
  refine ⟨rfl, ?_, ?_, ?_, ?_, by norm_num, ?_, ?_⟩
  · exact ⟨by linarith [hT.1], by linarith [hT.2]⟩
  · exact hR
  · exact ⟨by linarith [hV.1], by linarith [hV.2]⟩
  · exact ⟨by linarith [hD.1], by linarith [hD.2]⟩
  · exact ⟨by linarith [hC.1], by linarith [hC.2]⟩
  · constructor
    · linarith [hT.1, hR.1, hV.1, hD.1, hC.1]
    · linarith [hT.2, hR.2, hV.2, hD.2, hC.2]

/-- Witness for C6 at a concrete in-range FeatureSet. -/
theorem C6_swing_score_sum_and_bounds_witness :
    (∀ p, (fsSimple (some 50)).rsVsSpy = some p → 0 ≤ p ∧ p ≤ 100) ∧
    (0 ≤ (scoreFeatures (fsSimple (some 50)) DEFAULT_WEIGHTS).swingScore ∧
      (scoreFeatures (fsSimple (some 50)) DEFAULT_WEIGHTS).swingScore ≤ 100) := by
  have hyp : ∀ p, (fsSimple (some 50)).rsVsSpy = some p → 0 ≤ p ∧ p ≤ 100 := by
    intro p hp
    simp only [fsSimple, Option.some.injEq] at hp
    subst hp
    norm_num
  exact ⟨hyp,
    (C6_swing_score_sum_and_bounds (fsSimple (some 50)) hyp).2.2.2.2.2.2.2⟩

/-- Claim C7 counterexample: on a monotonically rising 15-bar series,
computeRSI alone does yield 100, but computeFeatures nulls every feature below
20 bars, so its rsi14 is null — not 100 as the claim states. -/
theorem C7_counterexample :
    computeRSI (risingBars 15) 14 = some 100 ∧
    (computeFeatures (risingBars 15) none).rsi14 = none ∧
    (computeFeatures (risingBars 15) none).rsi14 ≠ some 100 := by
  have h1 : computeRSI (risingBars 15) 14 = some 100 :=
    computeRSI_no_losses _ (by rw [risingBars_length]; omega) (risingBars_chain 15)
  have h2 : (computeFeatures (risingBars 15) none).rsi14 = none :=
    computeFeatures_short _ _ (by rw [risingBars_length]; omega)
  exact ⟨h1, h2, by rw [h2]; simp⟩

/-- Claim C7 (amended): computeRSI is null below 15 bars, otherwise
100 − 100/(1 + avgGain/avgLoss) over the last 14 close-to-close changes with
100 when the average loss is 0, so a monotonically non-decreasing series of at
least 15 bars scores 100; computeFeatures, however, nulls rsi14 (with every
other feature) below 20 bars and only exposes computeRSI from 20 bars on, so
the 15-bar rising scenario yields null from computeFeatures and 100 only from
computeRSI (or from computeFeatures at ≥ 20 bars). -/
theorem C7_rsi (bars : List Bar) (spy : Option (List Bar)) :
    (bars.length < 15 → computeRSI bars 14 = none) ∧
    (15 ≤ bars.length →
      computeRSI bars 14 =
        some (if avgLossOf bars 14 = 0 then 100
          else 100 - 100 / (1 + avgGainOf bars 14 / avgLossOf bars 14))) ∧
    (15 ≤ bars.length → List.Chain' (fun a b => a.close ≤ b.close) bars →
      computeRSI bars 14 = some 100) ∧
    (bars.length < 20 → (computeFeatures bars spy).rsi14 = none) ∧
    (20 ≤ bars.length → (computeFeatures bars spy).rsi14 = computeRSI bars 14) := by
  refine ⟨?_, ?_, ?_, ?_, ?_⟩
  · intro h
    unfold computeRSI
    rw [if_pos (show bars.length < 14 + 1 by omega)]
  · intro h
    unfold computeRSI
    rw [if_neg (show ¬ bars.length < 14 + 1 by omega)]
    split_ifs <;> rfl
  · intro h hchain
    exact computeRSI_no_losses bars (by omega) hchain
  · intro h
    exact computeFeatures_short bars spy h
  · intro h
    unfold computeFeatures
    rw [if_neg (show ¬ bars.length < 20 by omega)]

/-- Witness for C7 (amended): a 20-bar rising series scores rsi14 = 100
through computeFeatures. -/
theorem C7_rsi_witness :
    (20 ≤ (risingBars 20).length ∧
      List.Chain' (fun a b => a.close ≤ b.close) (risingBars 20)) ∧
    (computeFeatures (risingBars 20) none).rsi14 = some 100 := by
  have hlen : (risingBars 20).length = 20 := risingBars_length 20
  have hchain : List.Chain' (fun a b => a.close ≤ b.close) (risingBars 20) :=
    risingBars_chain 20
  have h := C7_rsi (risingBars 20) none
  refine ⟨⟨by omega, hchain⟩, ?_⟩
  rw [h.2.2.2.2 (by omega), h.2.2.1 (by omega) hchain]

/-- Claim C8 counterexample: the relative-strength component is NOT
max × (p/100) over the whole range: at percentile 0 the JS falsiness check
treats the value as missing and scores the neutral 10 (not 0), and at
percentile 33 the component is Math.round(6.6) = 7, not 6.6. -/
theorem C8_counterexample :
    (scoreRelativeStrength (fsSimple (some 0)) 20).1 = 10 ∧
    (scoreRelativeStrength (fsSimple (some 0)) 20).1 ≠ 20 * (0 / 100) ∧
    (scoreRelativeStrength (fsSimple (some 33)) 20).1 = 7 ∧
    (scoreRelativeStrength (fsSimple (some 33)) 20).1 ≠ 20 * (33 / 100) := by
  refine ⟨?_, ?_, ?_, ?_⟩ <;>
    norm_num [scoreRelativeStrength, fsSimple, jsTruthy, jsRound]

/-- Claim C8 (amended): for a non-null percentile p in (0, 100], the
relative-strength component is Math.round(20 × p/100) — linear up to the JS
rounding — with 20 at p = 100; p = 0 is caught by the falsiness check and is
scored with the neutral default 10. -/
theorem C8_rs_linear_rounded (f : FeatureSet) (p : ℚ)
    (hp : f.rsVsSpy = some p) (_h0 : 0 ≤ p) (_h100 : p ≤ 100) :
    (p ≠ 0 →
      (scoreRelativeStrength f 20).1 = (jsRound (20 * (p / 100)) : ℚ)) ∧
    (p = 0 → (scoreRelativeStrength f 20).1 = 10) ∧
    (p = 100 → (scoreRelativeStrength f 20).1 = 20) := by
  unfold scoreRelativeStrength
  rw [hp]
  refine ⟨?_, ?_, ?_⟩
  · intro hz
    simp [jsTruthy, hz]
  · intro hz
    subst hz
    norm_num [jsTruthy]
  · intro hz
    subst hz
    norm_num [jsTruthy, jsRound]

/-- Witness for C8 (amended) at percentile 50. -/
theorem C8_rs_linear_rounded_witness :
    ((fsSimple (some 50)).rsVsSpy = some 50 ∧ (0:ℚ) ≤ 50 ∧ (50:ℚ) ≤ 100 ∧ (50:ℚ) ≠ 0) ∧
    (scoreRelativeStrength (fsSimple (some 50)) 20).1 = (jsRound (20 * (50 / 100)) : ℚ) :=
  ⟨⟨rfl, by norm_num, by norm_num, by norm_num⟩,
   (C8_rs_linear_rounded (fsSimple (some 50)) 50 rfl (by norm_num) (by norm_num)).1
     (by norm_num)⟩

/-- Claim C9: evaluation at the failing input. In a universe where exactly one
symbol has a computed 20-day return, phase 2 computes
Math.round((0 / (1 − 1)) × 100) = NaN (modelled `none`) and assigns it to
rsVsSpy, which is therefore not a real number in [0, 100]. -/
theorem C9_single_ranked_symbol_percentile_not_real :
    assignedPercentiles (rsRatiosOf [1/10] (1/20)) = [none] ∧
    rankPercentile 0 1 = none :=
  ⟨rfl, rfl⟩

/-- Claim C10 counterexample: a symbol whose feature lookup is empty is NOT
recorded in the run's errors — it is counted as successfully scored
(scored = 1, errors = []), so the claim as stated fails. -/
theorem C10_counterexample :
    (scoreUniverse (fun _ => ⟨some DefenseClassification.NON_DEFENSE, none⟩)
        ["AAPL"] DEFAULT_WEIGHTS).errors = [] ∧
    (scoreUniverse (fun _ => ⟨some DefenseClassification.NON_DEFENSE, none⟩)
        ["AAPL"] DEFAULT_WEIGHTS).scored = 1 :=
  ⟨rfl, rfl⟩

/-- Claim C10 (amended): no symbol is silently dropped — every symbol of the
run lands in exactly one of the scores or the errors list; a symbol with no
features is not an error: scoreCandidate returns the empty score whose
warnings record the reason, the symbol is counted as scored with swingScore 0,
and the run continues. -/
theorem C10_no_silent_drop (db : String → SymbolData) (w : ScoringWeights)
    (symbols : List String) :
    ((scoreUniverseRun db w symbols).1.length + (scoreUniverseRun db w symbols).2.length
        = symbols.length) ∧
    ((scoreUniverse db symbols w).scored = (scoreUniverseRun db w symbols).1.length) ∧
    ((scoreUniverse db symbols w).errors = (scoreUniverseRun db w symbols).2) ∧
    (∀ s ∈ symbols,
      (db s).cls ≠ some DefenseClassification.DEFENSE_PRIMARY →
      (db s).features = none →
      (s, (0:ℚ)) ∈ (scoreUniverseRun db w symbols).1) ∧
    (∀ s cls, cls ≠ some DefenseClassification.DEFENSE_PRIMARY →
      scoreCandidate s cls none w = Except.ok (createEmptyScore Reason.noFeatures)) ∧
    (createEmptyScore Reason.noFeatures).warnings = [Reason.noFeatures] ∧
    (createEmptyScore Reason.noFeatures).swingScore = 0 := by
  refine ⟨scoreUniverseRun_length db w symbols, rfl, rfl, ?_, ?_, rfl, rfl⟩
  · intro s hs hcls hf
    exact scoreUniverseRun_mem_noFeatures db w symbols s hs hcls hf
  · intro s cls hcls
    exact scoreCandidate_noFeatures s cls w hcls

/-- Witness for C10 (amended) at a one-symbol universe with no features. -/
theorem C10_no_silent_drop_witness :
    ("AAPL" ∈ ["AAPL"]) ∧
    ("AAPL", (0:ℚ)) ∈ (scoreUniverseRun
        (fun _ => ⟨some DefenseClassification.NON_DEFENSE, none⟩)
        DEFAULT_WEIGHTS ["AAPL"]).1 :=
  ⟨by simp,
   (C10_no_silent_drop (fun _ => ⟨some DefenseClassification.NON_DEFENSE, none⟩)
       DEFAULT_WEIGHTS ["AAPL"]).2.2.2.1 "AAPL" (by simp) (by decide) rfl⟩

end SwingTrader
